import Mathlib

/-!
Verification development for the `mercy` crate (`src/lib.rs`), a small
security-utility library.  Each fallible Rust function is shallowly embedded
as a Lean function returning `Except Panic _`, where `Except.error (Panic.mk m)`
models a Rust panic (an `unwrap`/`expect`-style process abort) with message `m`,
and `Except.ok` models normal return of the function's `String` result.
External effects (the filesystem, the network, the OS, the `serde_json` parser)
are passed in explicitly as environment values, so every definition is an
executable function of its inputs.
-/

set_option maxRecDepth 8000

/-- Model of a Rust panic (`unwrap`/`expect` process abort): the payload is the
panic message. A value `Except.error (Panic.mk m)` in the embeddings below means
the original program aborts the process; it never returns a value to its caller. -/
structure Panic where
  msg : String
  deriving DecidableEq, Repr

deriving instance DecidableEq for Except

/-- Model of Rust's `char::from_u32`: succeeds exactly on Unicode scalar values
(code points below 0xD800 or in [0xE000, 0x110000)). -/
def char_from_u32 (n : Nat) : Option Char :=
  if h : Nat.isValidChar n then some (Char.ofNat n) else none

/- ## JSON documents and the domain-classification mapping

`serde_json::Value` is embedded as an inductive `Json`.  Indexing a `Value`
with `["field"]` or `[0]` in Rust returns `Value::Null` when the field or the
index is absent or the value has the wrong shape; equality `value == "lit"`
holds exactly when the value is a string equal to the literal.  These are the
semantics of `serde_json`'s `Index` impls and its `PartialEq<str>` impl, used
by `malicious_domain_status` in `src/lib.rs` lines 294-302. -/

/-- Model of a `serde_json::Value` document. -/
inductive Json where
  | null
  | bool (b : Bool)
  | num (n : Int)
  | str (s : String)
  | arr (elems : List Json)
  | obj (fields : List (String × Json))

/-- Model of `value["key"]` on a `serde_json::Value`: the first field with the
given key of an object, `Null` for a missing key or a non-object. -/
def Json.getField : Json → String → Json
  | .obj fields, key =>
    match fields.find? (fun p => p.1 == key) with
    | some p => p.2
    | none => .null
  | _, _ => .null

/-- Model of `value[i]` on a `serde_json::Value`: element `i` of an array,
`Null` when out of bounds or for a non-array. -/
def Json.getIdx : Json → Nat → Json
  | .arr elems, i => elems.getD i .null
  | _, _ => .null

/-- Model of `value == "lit"` (serde_json's `PartialEq<str>`): true exactly for
a JSON string equal to the literal. -/
def Json.eqStr : Json → String → Bool
  | .str s, lit => s == lit
  | _, _ => false

/-- The value inspected by `malicious_domain_status`:
`json_parse["data"][0]["classification"]` (src/lib.rs lines 294-298). -/
def firstClassification (j : Json) : Json :=
  ((j.getField "data").getIdx 0).getField "classification"

/-- The classification mapping of `malicious_domain_status` (src/lib.rs lines
294-303): the if/else-if chain on `json_parse["data"][0]["classification"]`. -/
def classify_json (j : Json) : String :=
  if (firstClassification j).eqStr "MALICIOUS" then "Malicious"
  else if (firstClassification j).eqStr "UNKNOWN" then "Unknown"
  else if (firstClassification j).eqStr "SUSPICIOUS" then "Suspicious"
  else "No classification available"

/- ## The domain-classification lookup pipeline

`malicious_domain_status` (src/lib.rs lines 279-303) together with
`url_request` (lines 306-325).  The environment supplies the outcome of the
HTTP request (`resp`), the behaviour of `serde_json::from_str` on the body
(`parse`), and whether the filesystem allows creating and removing
`/tmp/mercy_domain_review.json` (`createOk`, `removeOk`).  The mutable state
threaded through is the content of that single fixed temporary path:
`none` = the file does not exist, `some body` = it exists with that content. -/

structure LookupEnv where
  resp : Except String String
  parse : String → Option Json
  createOk : Bool
  removeOk : Bool

/-- Model of `url_request` (src/lib.rs lines 306-325).  It first creates
(truncates) the temporary file via `File::create(..).expect(..)` — a panic if
creation fails — then performs the GET; a network error is returned to the
caller as `Err` (the `?` operator) with the file already created and empty;
on success the body is written to the file and returned. -/
def url_request (env : LookupEnv) (tmpFile : Option String) :
    Except Panic (Except String String) × Option String :=
  if env.createOk then
    match env.resp with
    | Except.error e => (Except.ok (Except.error e), some "")
    | Except.ok body => (Except.ok (Except.ok body), some body)
  else (Except.error (Panic.mk "Failed to create file"), tmpFile)

/-- Model of `malicious_domain_status` (src/lib.rs lines 279-303).  Steps, in
source order: `url_request(..).await.unwrap()` (panic on a network `Err`);
`read_to_string` of the temporary file (`expect`, panic when absent);
`serde_json::from_str::<Value>(..).unwrap()` (panic when the body does not
parse); `fs::remove_file(..).unwrap()` (panic when removal fails); finally the
pure classification chain.  The returned state is the temporary-file content
after the call, so that what the call leaves behind is observable. -/
def malicious_domain_status (env : LookupEnv) (tmpFile : Option String) :
    Except Panic String × Option String :=
  match url_request env tmpFile with
  | (Except.error p, fs1) => (Except.error p, fs1)
  | (Except.ok (Except.error _), fs1) =>
    (Except.error (Panic.mk "called Result unwrap on an Err value"), fs1)
  | (Except.ok (Except.ok _), fs1) =>
    match fs1 with
    | none => (Except.error (Panic.mk "Unable to locate file"), none)
    | some content =>
      match env.parse content with
      | none => (Except.error (Panic.mk "called Result unwrap on an Err value"), some content)
      | some j =>
        if env.removeOk then (Except.ok (classify_json j), none)
        else (Except.error (Panic.mk "called Result unwrap on an Err value"), some content)

/- ## Hex dump

`collect_file_hex` (src/lib.rs lines 215-223) and `byte_to_vec` (lines
197-213).  The filesystem is a map from paths to byte contents.  The
`hexdump::hexdump` call prints the dump to stdout and returns `()`, so
`format!("{:#?}", hexdump(..))` is the string rendering of the unit value;
stdout is not modelled. -/

/-- Model of `byte_to_vec` (src/lib.rs lines 197-213): reads the whole file
into a buffer, panicking (`expect`) when the file cannot be opened.  The
repeated-`read` loop leaves the buffer holding the file contents. -/
def byte_to_vec (fs : String → Option (List Nat)) (filename : String) :
    Except Panic (List Nat) :=
  match fs filename with
  | none => Except.error (Panic.mk "Unable to locate file")
  | some content => Except.ok content

/-- Model of `collect_file_hex` (src/lib.rs lines 215-223): when
`Path::new(convert_file).exists()` the bytes are read and hex-dumped to stdout
(the returned string is the `{:#?}` rendering of `hexdump`'s unit value);
otherwise the fixed not-found message is returned, with no panic. -/
def collect_file_hex (fs : String → Option (List Nat)) (convert_file : String) :
    Except Panic String :=
  if (fs convert_file).isSome then
    match byte_to_vec fs convert_file with
    | Except.error p => Except.error p
    | Except.ok _ => Except.ok "()"
  else Except.ok "Unable to locate the file specified"

/- ## Host system information

`system_info` (src/lib.rs lines 236-249).  The `sys_info` crate calls
`hostname()`, `cpu_num()`, `cpu_speed()`, `os_release()`, `proc_total()` each
return a `Result`; the environment models each as present (`some`) or failing
(`none`), and every `.unwrap()` on a failing query is a panic. -/

structure SysEnv where
  hostname : Option String
  cpu_num : Option Nat
  cpu_speed : Option Nat
  os_release : Option String
  proc_total : Option Nat

/-- Model of `.unwrap()` on a `sys_info` query result. -/
def unwrapO {α : Type} : Option α → Except Panic α
  | some a => Except.ok a
  | none => Except.error (Panic.mk "called Result unwrap on an Err value")

/-- Model of `system_info` (src/lib.rs lines 236-249).  Faithful to the source,
the `all_system_info` string is built eagerly — unwrapping all five queries in
the order of the `format!` arguments — before the selector is matched, so every
request performs all five queries. -/
def system_info (env : SysEnv) (data : String) : Except Panic String := do
  let hn ← unwrapO env.hostname
  let cn ← unwrapO env.cpu_num
  let cs ← unwrapO env.cpu_speed
  let osr ← unwrapO env.os_release
  let pt ← unwrapO env.proc_total
  let all_system_info :=
    "\nHostname: " ++ hn ++ "\nNumber of CPU cores: " ++ toString cn ++
    "\nCPU Fan Speed: " ++ toString cs ++ " MHz\nOperating System Release Version: " ++ osr ++
    "\nNumber of Processes: " ++ toString pt ++ "\n"
  match data with
  | "hostname" => do
    let v ← unwrapO env.hostname
    pure ("Hostname: " ++ v)
  | "cpu_cores" => do
    let v ← unwrapO env.cpu_num
    pure ("Number of CPU cores: " ++ toString v)
  | "cpu_speed" => do
    let v ← unwrapO env.cpu_speed
    pure ("CPU Fan Speed: " ++ toString v ++ " MHz")
  | "os_release" => do
    let v ← unwrapO env.os_release
    pure ("Operating System Release Version: " ++ v)
  | "proc" => do
    let v ← unwrapO env.proc_total
    pure ("Number of Processes: " ++ toString v)
  | "all" => pure all_system_info
  | _ => pure "Unable to gather system information"

/- ## ROT13

`rot13_decode` (src/lib.rs lines 143-166).  The source classifies each
character with Rust's Unicode-aware `char::is_lowercase` / `char::is_uppercase`
(the Unicode `Lowercase` / `Uppercase` properties, not ASCII-only), subtracts
the ASCII base `'a'`/`'A'` with `u32` arithmetic, and rebuilds the shifted
character with `char::from_u32(..).unwrap()`. -/

/-- The 671 code-point intervals of the Unicode `Lowercase` derived
property (Unicode 15.0), the character table behind Rust's
`char::is_lowercase`, listed in full as (first, last) pairs in decimal. -/
def lowercaseRanges : List (Nat × Nat) :=
  [(97, 122), (170, 170), (181, 181), (186, 186), (223, 246), (248, 255),
   (257, 257), (259, 259), (261, 261), (263, 263), (265, 265), (267, 267),
   (269, 269), (271, 271), (273, 273), (275, 275), (277, 277), (279, 279),
   (281, 281), (283, 283), (285, 285), (287, 287), (289, 289), (291, 291),
   (293, 293), (295, 295), (297, 297), (299, 299), (301, 301), (303, 303),
   (305, 305), (307, 307), (309, 309), (311, 312), (314, 314), (316, 316),
   (318, 318), (320, 320), (322, 322), (324, 324), (326, 326), (328, 329),
   (331, 331), (333, 333), (335, 335), (337, 337), (339, 339), (341, 341),
   (343, 343), (345, 345), (347, 347), (349, 349), (351, 351), (353, 353),
   (355, 355), (357, 357), (359, 359), (361, 361), (363, 363), (365, 365),
   (367, 367), (369, 369), (371, 371), (373, 373), (375, 375), (378, 378),
   (380, 380), (382, 384), (387, 387), (389, 389), (392, 392), (396, 397),
   (402, 402), (405, 405), (409, 411), (414, 414), (417, 417), (419, 419),
   (421, 421), (424, 424), (426, 427), (429, 429), (432, 432), (436, 436),
   (438, 438), (441, 442), (445, 447), (454, 454), (457, 457), (460, 460),
   (462, 462), (464, 464), (466, 466), (468, 468), (470, 470), (472, 472),
   (474, 474), (476, 477), (479, 479), (481, 481), (483, 483), (485, 485),
   (487, 487), (489, 489), (491, 491), (493, 493), (495, 496), (499, 499),
   (501, 501), (505, 505), (507, 507), (509, 509), (511, 511), (513, 513),
   (515, 515), (517, 517), (519, 519), (521, 521), (523, 523), (525, 525),
   (527, 527), (529, 529), (531, 531), (533, 533), (535, 535), (537, 537),
   (539, 539), (541, 541), (543, 543), (545, 545), (547, 547), (549, 549),
   (551, 551), (553, 553), (555, 555), (557, 557), (559, 559), (561, 561),
   (563, 569), (572, 572), (575, 576), (578, 578), (583, 583), (585, 585),
   (587, 587), (589, 589), (591, 659), (661, 696), (704, 705), (736, 740),
   (837, 837), (881, 881), (883, 883), (887, 887), (890, 893), (912, 912),
   (940, 974), (976, 977), (981, 983), (985, 985), (987, 987), (989, 989),
   (991, 991), (993, 993), (995, 995), (997, 997), (999, 999), (1001, 1001),
   (1003, 1003), (1005, 1005), (1007, 1011), (1013, 1013), (1016, 1016), (1019, 1020),
   (1072, 1119), (1121, 1121), (1123, 1123), (1125, 1125), (1127, 1127), (1129, 1129),
   (1131, 1131), (1133, 1133), (1135, 1135), (1137, 1137), (1139, 1139), (1141, 1141),
   (1143, 1143), (1145, 1145), (1147, 1147), (1149, 1149), (1151, 1151), (1153, 1153),
   (1163, 1163), (1165, 1165), (1167, 1167), (1169, 1169), (1171, 1171), (1173, 1173),
   (1175, 1175), (1177, 1177), (1179, 1179), (1181, 1181), (1183, 1183), (1185, 1185),
   (1187, 1187), (1189, 1189), (1191, 1191), (1193, 1193), (1195, 1195), (1197, 1197),
   (1199, 1199), (1201, 1201), (1203, 1203), (1205, 1205), (1207, 1207), (1209, 1209),
   (1211, 1211), (1213, 1213), (1215, 1215), (1218, 1218), (1220, 1220), (1222, 1222),
   (1224, 1224), (1226, 1226), (1228, 1228), (1230, 1231), (1233, 1233), (1235, 1235),
   (1237, 1237), (1239, 1239), (1241, 1241), (1243, 1243), (1245, 1245), (1247, 1247),
   (1249, 1249), (1251, 1251), (1253, 1253), (1255, 1255), (1257, 1257), (1259, 1259),
   (1261, 1261), (1263, 1263), (1265, 1265), (1267, 1267), (1269, 1269), (1271, 1271),
   (1273, 1273), (1275, 1275), (1277, 1277), (1279, 1279), (1281, 1281), (1283, 1283),
   (1285, 1285), (1287, 1287), (1289, 1289), (1291, 1291), (1293, 1293), (1295, 1295),
   (1297, 1297), (1299, 1299), (1301, 1301), (1303, 1303), (1305, 1305), (1307, 1307),
   (1309, 1309), (1311, 1311), (1313, 1313), (1315, 1315), (1317, 1317), (1319, 1319),
   (1321, 1321), (1323, 1323), (1325, 1325), (1327, 1327), (1376, 1416), (4304, 4346),
   (4348, 4351), (5112, 5117), (7296, 7304), (7424, 7615), (7681, 7681), (7683, 7683),
   (7685, 7685), (7687, 7687), (7689, 7689), (7691, 7691), (7693, 7693), (7695, 7695),
   (7697, 7697), (7699, 7699), (7701, 7701), (7703, 7703), (7705, 7705), (7707, 7707),
   (7709, 7709), (7711, 7711), (7713, 7713), (7715, 7715), (7717, 7717), (7719, 7719),
   (7721, 7721), (7723, 7723), (7725, 7725), (7727, 7727), (7729, 7729), (7731, 7731),
   (7733, 7733), (7735, 7735), (7737, 7737), (7739, 7739), (7741, 7741), (7743, 7743),
   (7745, 7745), (7747, 7747), (7749, 7749), (7751, 7751), (7753, 7753), (7755, 7755),
   (7757, 7757), (7759, 7759), (7761, 7761), (7763, 7763), (7765, 7765), (7767, 7767),
   (7769, 7769), (7771, 7771), (7773, 7773), (7775, 7775), (7777, 7777), (7779, 7779),
   (7781, 7781), (7783, 7783), (7785, 7785), (7787, 7787), (7789, 7789), (7791, 7791),
   (7793, 7793), (7795, 7795), (7797, 7797), (7799, 7799), (7801, 7801), (7803, 7803),
   (7805, 7805), (7807, 7807), (7809, 7809), (7811, 7811), (7813, 7813), (7815, 7815),
   (7817, 7817), (7819, 7819), (7821, 7821), (7823, 7823), (7825, 7825), (7827, 7827),
   (7829, 7837), (7839, 7839), (7841, 7841), (7843, 7843), (7845, 7845), (7847, 7847),
   (7849, 7849), (7851, 7851), (7853, 7853), (7855, 7855), (7857, 7857), (7859, 7859),
   (7861, 7861), (7863, 7863), (7865, 7865), (7867, 7867), (7869, 7869), (7871, 7871),
   (7873, 7873), (7875, 7875), (7877, 7877), (7879, 7879), (7881, 7881), (7883, 7883),
   (7885, 7885), (7887, 7887), (7889, 7889), (7891, 7891), (7893, 7893), (7895, 7895),
   (7897, 7897), (7899, 7899), (7901, 7901), (7903, 7903), (7905, 7905), (7907, 7907),
   (7909, 7909), (7911, 7911), (7913, 7913), (7915, 7915), (7917, 7917), (7919, 7919),
   (7921, 7921), (7923, 7923), (7925, 7925), (7927, 7927), (7929, 7929), (7931, 7931),
   (7933, 7933), (7935, 7943), (7952, 7957), (7968, 7975), (7984, 7991), (8000, 8005),
   (8016, 8023), (8032, 8039), (8048, 8061), (8064, 8071), (8080, 8087), (8096, 8103),
   (8112, 8116), (8118, 8119), (8126, 8126), (8130, 8132), (8134, 8135), (8144, 8147),
   (8150, 8151), (8160, 8167), (8178, 8180), (8182, 8183), (8305, 8305), (8319, 8319),
   (8336, 8348), (8458, 8458), (8462, 8463), (8467, 8467), (8495, 8495), (8500, 8500),
   (8505, 8505), (8508, 8509), (8518, 8521), (8526, 8526), (8560, 8575), (8580, 8580),
   (9424, 9449), (11312, 11359), (11361, 11361), (11365, 11366), (11368, 11368), (11370, 11370),
   (11372, 11372), (11377, 11377), (11379, 11380), (11382, 11389), (11393, 11393), (11395, 11395),
   (11397, 11397), (11399, 11399), (11401, 11401), (11403, 11403), (11405, 11405), (11407, 11407),
   (11409, 11409), (11411, 11411), (11413, 11413), (11415, 11415), (11417, 11417), (11419, 11419),
   (11421, 11421), (11423, 11423), (11425, 11425), (11427, 11427), (11429, 11429), (11431, 11431),
   (11433, 11433), (11435, 11435), (11437, 11437), (11439, 11439), (11441, 11441), (11443, 11443),
   (11445, 11445), (11447, 11447), (11449, 11449), (11451, 11451), (11453, 11453), (11455, 11455),
   (11457, 11457), (11459, 11459), (11461, 11461), (11463, 11463), (11465, 11465), (11467, 11467),
   (11469, 11469), (11471, 11471), (11473, 11473), (11475, 11475), (11477, 11477), (11479, 11479),
   (11481, 11481), (11483, 11483), (11485, 11485), (11487, 11487), (11489, 11489), (11491, 11492),
   (11500, 11500), (11502, 11502), (11507, 11507), (11520, 11557), (11559, 11559), (11565, 11565),
   (42561, 42561), (42563, 42563), (42565, 42565), (42567, 42567), (42569, 42569), (42571, 42571),
   (42573, 42573), (42575, 42575), (42577, 42577), (42579, 42579), (42581, 42581), (42583, 42583),
   (42585, 42585), (42587, 42587), (42589, 42589), (42591, 42591), (42593, 42593), (42595, 42595),
   (42597, 42597), (42599, 42599), (42601, 42601), (42603, 42603), (42605, 42605), (42625, 42625),
   (42627, 42627), (42629, 42629), (42631, 42631), (42633, 42633), (42635, 42635), (42637, 42637),
   (42639, 42639), (42641, 42641), (42643, 42643), (42645, 42645), (42647, 42647), (42649, 42649),
   (42651, 42653), (42787, 42787), (42789, 42789), (42791, 42791), (42793, 42793), (42795, 42795),
   (42797, 42797), (42799, 42801), (42803, 42803), (42805, 42805), (42807, 42807), (42809, 42809),
   (42811, 42811), (42813, 42813), (42815, 42815), (42817, 42817), (42819, 42819), (42821, 42821),
   (42823, 42823), (42825, 42825), (42827, 42827), (42829, 42829), (42831, 42831), (42833, 42833),
   (42835, 42835), (42837, 42837), (42839, 42839), (42841, 42841), (42843, 42843), (42845, 42845),
   (42847, 42847), (42849, 42849), (42851, 42851), (42853, 42853), (42855, 42855), (42857, 42857),
   (42859, 42859), (42861, 42861), (42863, 42872), (42874, 42874), (42876, 42876), (42879, 42879),
   (42881, 42881), (42883, 42883), (42885, 42885), (42887, 42887), (42892, 42892), (42894, 42894),
   (42897, 42897), (42899, 42901), (42903, 42903), (42905, 42905), (42907, 42907), (42909, 42909),
   (42911, 42911), (42913, 42913), (42915, 42915), (42917, 42917), (42919, 42919), (42921, 42921),
   (42927, 42927), (42933, 42933), (42935, 42935), (42937, 42937), (42939, 42939), (42941, 42941),
   (42943, 42943), (42945, 42945), (42947, 42947), (42952, 42952), (42954, 42954), (42961, 42961),
   (42963, 42963), (42965, 42965), (42967, 42967), (42969, 42969), (42994, 42996), (42998, 42998),
   (43000, 43002), (43824, 43866), (43868, 43881), (43888, 43967), (64256, 64262), (64275, 64279),
   (65345, 65370), (66600, 66639), (66776, 66811), (66967, 66977), (66979, 66993), (66995, 67001),
   (67003, 67004), (67456, 67456), (67459, 67461), (67463, 67504), (67506, 67514), (68800, 68850),
   (71872, 71903), (93792, 93823), (119834, 119859), (119886, 119892), (119894, 119911), (119938, 119963),
   (119990, 119993), (119995, 119995), (119997, 120003), (120005, 120015), (120042, 120067), (120094, 120119),
   (120146, 120171), (120198, 120223), (120250, 120275), (120302, 120327), (120354, 120379), (120406, 120431),
   (120458, 120485), (120514, 120538), (120540, 120545), (120572, 120596), (120598, 120603), (120630, 120654),
   (120656, 120661), (120688, 120712), (120714, 120719), (120746, 120770), (120772, 120777), (120779, 120779),
   (122624, 122633), (122635, 122654), (122661, 122666), (122928, 122989), (125218, 125251)]

/-- The 651 code-point intervals of the Unicode `Uppercase` derived
property (Unicode 15.0), the character table behind Rust's
`char::is_uppercase`, listed in full as (first, last) pairs in decimal. -/
def uppercaseRanges : List (Nat × Nat) :=
  [(65, 90), (192, 214), (216, 222), (256, 256), (258, 258), (260, 260),
   (262, 262), (264, 264), (266, 266), (268, 268), (270, 270), (272, 272),
   (274, 274), (276, 276), (278, 278), (280, 280), (282, 282), (284, 284),
   (286, 286), (288, 288), (290, 290), (292, 292), (294, 294), (296, 296),
   (298, 298), (300, 300), (302, 302), (304, 304), (306, 306), (308, 308),
   (310, 310), (313, 313), (315, 315), (317, 317), (319, 319), (321, 321),
   (323, 323), (325, 325), (327, 327), (330, 330), (332, 332), (334, 334),
   (336, 336), (338, 338), (340, 340), (342, 342), (344, 344), (346, 346),
   (348, 348), (350, 350), (352, 352), (354, 354), (356, 356), (358, 358),
   (360, 360), (362, 362), (364, 364), (366, 366), (368, 368), (370, 370),
   (372, 372), (374, 374), (376, 377), (379, 379), (381, 381), (385, 386),
   (388, 388), (390, 391), (393, 395), (398, 401), (403, 404), (406, 408),
   (412, 413), (415, 416), (418, 418), (420, 420), (422, 423), (425, 425),
   (428, 428), (430, 431), (433, 435), (437, 437), (439, 440), (444, 444),
   (452, 452), (455, 455), (458, 458), (461, 461), (463, 463), (465, 465),
   (467, 467), (469, 469), (471, 471), (473, 473), (475, 475), (478, 478),
   (480, 480), (482, 482), (484, 484), (486, 486), (488, 488), (490, 490),
   (492, 492), (494, 494), (497, 497), (500, 500), (502, 504), (506, 506),
   (508, 508), (510, 510), (512, 512), (514, 514), (516, 516), (518, 518),
   (520, 520), (522, 522), (524, 524), (526, 526), (528, 528), (530, 530),
   (532, 532), (534, 534), (536, 536), (538, 538), (540, 540), (542, 542),
   (544, 544), (546, 546), (548, 548), (550, 550), (552, 552), (554, 554),
   (556, 556), (558, 558), (560, 560), (562, 562), (570, 571), (573, 574),
   (577, 577), (579, 582), (584, 584), (586, 586), (588, 588), (590, 590),
   (880, 880), (882, 882), (886, 886), (895, 895), (902, 902), (904, 906),
   (908, 908), (910, 911), (913, 929), (931, 939), (975, 975), (978, 980),
   (984, 984), (986, 986), (988, 988), (990, 990), (992, 992), (994, 994),
   (996, 996), (998, 998), (1000, 1000), (1002, 1002), (1004, 1004), (1006, 1006),
   (1012, 1012), (1015, 1015), (1017, 1018), (1021, 1071), (1120, 1120), (1122, 1122),
   (1124, 1124), (1126, 1126), (1128, 1128), (1130, 1130), (1132, 1132), (1134, 1134),
   (1136, 1136), (1138, 1138), (1140, 1140), (1142, 1142), (1144, 1144), (1146, 1146),
   (1148, 1148), (1150, 1150), (1152, 1152), (1162, 1162), (1164, 1164), (1166, 1166),
   (1168, 1168), (1170, 1170), (1172, 1172), (1174, 1174), (1176, 1176), (1178, 1178),
   (1180, 1180), (1182, 1182), (1184, 1184), (1186, 1186), (1188, 1188), (1190, 1190),
   (1192, 1192), (1194, 1194), (1196, 1196), (1198, 1198), (1200, 1200), (1202, 1202),
   (1204, 1204), (1206, 1206), (1208, 1208), (1210, 1210), (1212, 1212), (1214, 1214),
   (1216, 1217), (1219, 1219), (1221, 1221), (1223, 1223), (1225, 1225), (1227, 1227),
   (1229, 1229), (1232, 1232), (1234, 1234), (1236, 1236), (1238, 1238), (1240, 1240),
   (1242, 1242), (1244, 1244), (1246, 1246), (1248, 1248), (1250, 1250), (1252, 1252),
   (1254, 1254), (1256, 1256), (1258, 1258), (1260, 1260), (1262, 1262), (1264, 1264),
   (1266, 1266), (1268, 1268), (1270, 1270), (1272, 1272), (1274, 1274), (1276, 1276),
   (1278, 1278), (1280, 1280), (1282, 1282), (1284, 1284), (1286, 1286), (1288, 1288),
   (1290, 1290), (1292, 1292), (1294, 1294), (1296, 1296), (1298, 1298), (1300, 1300),
   (1302, 1302), (1304, 1304), (1306, 1306), (1308, 1308), (1310, 1310), (1312, 1312),
   (1314, 1314), (1316, 1316), (1318, 1318), (1320, 1320), (1322, 1322), (1324, 1324),
   (1326, 1326), (1329, 1366), (4256, 4293), (4295, 4295), (4301, 4301), (5024, 5109),
   (7312, 7354), (7357, 7359), (7680, 7680), (7682, 7682), (7684, 7684), (7686, 7686),
   (7688, 7688), (7690, 7690), (7692, 7692), (7694, 7694), (7696, 7696), (7698, 7698),
   (7700, 7700), (7702, 7702), (7704, 7704), (7706, 7706), (7708, 7708), (7710, 7710),
   (7712, 7712), (7714, 7714), (7716, 7716), (7718, 7718), (7720, 7720), (7722, 7722),
   (7724, 7724), (7726, 7726), (7728, 7728), (7730, 7730), (7732, 7732), (7734, 7734),
   (7736, 7736), (7738, 7738), (7740, 7740), (7742, 7742), (7744, 7744), (7746, 7746),
   (7748, 7748), (7750, 7750), (7752, 7752), (7754, 7754), (7756, 7756), (7758, 7758),
   (7760, 7760), (7762, 7762), (7764, 7764), (7766, 7766), (7768, 7768), (7770, 7770),
   (7772, 7772), (7774, 7774), (7776, 7776), (7778, 7778), (7780, 7780), (7782, 7782),
   (7784, 7784), (7786, 7786), (7788, 7788), (7790, 7790), (7792, 7792), (7794, 7794),
   (7796, 7796), (7798, 7798), (7800, 7800), (7802, 7802), (7804, 7804), (7806, 7806),
   (7808, 7808), (7810, 7810), (7812, 7812), (7814, 7814), (7816, 7816), (7818, 7818),
   (7820, 7820), (7822, 7822), (7824, 7824), (7826, 7826), (7828, 7828), (7838, 7838),
   (7840, 7840), (7842, 7842), (7844, 7844), (7846, 7846), (7848, 7848), (7850, 7850),
   (7852, 7852), (7854, 7854), (7856, 7856), (7858, 7858), (7860, 7860), (7862, 7862),
   (7864, 7864), (7866, 7866), (7868, 7868), (7870, 7870), (7872, 7872), (7874, 7874),
   (7876, 7876), (7878, 7878), (7880, 7880), (7882, 7882), (7884, 7884), (7886, 7886),
   (7888, 7888), (7890, 7890), (7892, 7892), (7894, 7894), (7896, 7896), (7898, 7898),
   (7900, 7900), (7902, 7902), (7904, 7904), (7906, 7906), (7908, 7908), (7910, 7910),
   (7912, 7912), (7914, 7914), (7916, 7916), (7918, 7918), (7920, 7920), (7922, 7922),
   (7924, 7924), (7926, 7926), (7928, 7928), (7930, 7930), (7932, 7932), (7934, 7934),
   (7944, 7951), (7960, 7965), (7976, 7983), (7992, 7999), (8008, 8013), (8025, 8025),
   (8027, 8027), (8029, 8029), (8031, 8031), (8040, 8047), (8120, 8123), (8136, 8139),
   (8152, 8155), (8168, 8172), (8184, 8187), (8450, 8450), (8455, 8455), (8459, 8461),
   (8464, 8466), (8469, 8469), (8473, 8477), (8484, 8484), (8486, 8486), (8488, 8488),
   (8490, 8493), (8496, 8499), (8510, 8511), (8517, 8517), (8544, 8559), (8579, 8579),
   (9398, 9423), (11264, 11311), (11360, 11360), (11362, 11364), (11367, 11367), (11369, 11369),
   (11371, 11371), (11373, 11376), (11378, 11378), (11381, 11381), (11390, 11392), (11394, 11394),
   (11396, 11396), (11398, 11398), (11400, 11400), (11402, 11402), (11404, 11404), (11406, 11406),
   (11408, 11408), (11410, 11410), (11412, 11412), (11414, 11414), (11416, 11416), (11418, 11418),
   (11420, 11420), (11422, 11422), (11424, 11424), (11426, 11426), (11428, 11428), (11430, 11430),
   (11432, 11432), (11434, 11434), (11436, 11436), (11438, 11438), (11440, 11440), (11442, 11442),
   (11444, 11444), (11446, 11446), (11448, 11448), (11450, 11450), (11452, 11452), (11454, 11454),
   (11456, 11456), (11458, 11458), (11460, 11460), (11462, 11462), (11464, 11464), (11466, 11466),
   (11468, 11468), (11470, 11470), (11472, 11472), (11474, 11474), (11476, 11476), (11478, 11478),
   (11480, 11480), (11482, 11482), (11484, 11484), (11486, 11486), (11488, 11488), (11490, 11490),
   (11499, 11499), (11501, 11501), (11506, 11506), (42560, 42560), (42562, 42562), (42564, 42564),
   (42566, 42566), (42568, 42568), (42570, 42570), (42572, 42572), (42574, 42574), (42576, 42576),
   (42578, 42578), (42580, 42580), (42582, 42582), (42584, 42584), (42586, 42586), (42588, 42588),
   (42590, 42590), (42592, 42592), (42594, 42594), (42596, 42596), (42598, 42598), (42600, 42600),
   (42602, 42602), (42604, 42604), (42624, 42624), (42626, 42626), (42628, 42628), (42630, 42630),
   (42632, 42632), (42634, 42634), (42636, 42636), (42638, 42638), (42640, 42640), (42642, 42642),
   (42644, 42644), (42646, 42646), (42648, 42648), (42650, 42650), (42786, 42786), (42788, 42788),
   (42790, 42790), (42792, 42792), (42794, 42794), (42796, 42796), (42798, 42798), (42802, 42802),
   (42804, 42804), (42806, 42806), (42808, 42808), (42810, 42810), (42812, 42812), (42814, 42814),
   (42816, 42816), (42818, 42818), (42820, 42820), (42822, 42822), (42824, 42824), (42826, 42826),
   (42828, 42828), (42830, 42830), (42832, 42832), (42834, 42834), (42836, 42836), (42838, 42838),
   (42840, 42840), (42842, 42842), (42844, 42844), (42846, 42846), (42848, 42848), (42850, 42850),
   (42852, 42852), (42854, 42854), (42856, 42856), (42858, 42858), (42860, 42860), (42862, 42862),
   (42873, 42873), (42875, 42875), (42877, 42878), (42880, 42880), (42882, 42882), (42884, 42884),
   (42886, 42886), (42891, 42891), (42893, 42893), (42896, 42896), (42898, 42898), (42902, 42902),
   (42904, 42904), (42906, 42906), (42908, 42908), (42910, 42910), (42912, 42912), (42914, 42914),
   (42916, 42916), (42918, 42918), (42920, 42920), (42922, 42926), (42928, 42932), (42934, 42934),
   (42936, 42936), (42938, 42938), (42940, 42940), (42942, 42942), (42944, 42944), (42946, 42946),
   (42948, 42951), (42953, 42953), (42960, 42960), (42966, 42966), (42968, 42968), (42997, 42997),
   (65313, 65338), (66560, 66599), (66736, 66771), (66928, 66938), (66940, 66954), (66956, 66962),
   (66964, 66965), (68736, 68786), (71840, 71871), (93760, 93791), (119808, 119833), (119860, 119885),
   (119912, 119937), (119964, 119964), (119966, 119967), (119970, 119970), (119973, 119974), (119977, 119980),
   (119982, 119989), (120016, 120041), (120068, 120069), (120071, 120074), (120077, 120084), (120086, 120092),
   (120120, 120121), (120123, 120126), (120128, 120132), (120134, 120134), (120138, 120144), (120172, 120197),
   (120224, 120249), (120276, 120301), (120328, 120353), (120380, 120405), (120432, 120457), (120488, 120512),
   (120546, 120570), (120604, 120628), (120662, 120686), (120720, 120744), (120778, 120778), (125184, 125217),
   (127280, 127305), (127312, 127337), (127344, 127369)]

/-- Rust's `char::is_lowercase`: membership of the code point in the complete
Unicode `Lowercase` property table. -/
def rustIsLowercase (c : Char) : Bool :=
  lowercaseRanges.any fun p => decide (p.1 ≤ c.toNat ∧ c.toNat ≤ p.2)

/-- Rust's `char::is_uppercase`: membership of the code point in the complete
Unicode `Uppercase` property table. -/
def rustIsUppercase (c : Char) : Bool :=
  uppercaseRanges.any fun p => decide (p.1 ≤ c.toNat ∧ c.toNat ≤ p.2)

/-- Model of `u32` subtraction `a - b` as executed by the source: the
subtraction panics on underflow (debug overflow checks), modelled as `none`. -/
def u32_sub (a b : Nat) : Option Nat :=
  if b ≤ a then some (a - b) else none

/-- Model of the per-character body of the `rot13_decode` loop (src/lib.rs
lines 147-163): case-classify, subtract the base, add 13 mod 26, add the base
back, and `char::from_u32(..).unwrap()` the result. -/
def rot13_char (c : Char) : Except Panic Char :=
  let charcode := c.toNat
  if rustIsLowercase c then
    match u32_sub charcode 0x61 with
    | none => Except.error (Panic.mk "attempt to subtract with overflow")
    | some d =>
      match char_from_u32 ((d + 13) % 26 + 0x61) with
      | none => Except.error (Panic.mk "called Option unwrap on a None value")
      | some c2 => Except.ok c2
  else if rustIsUppercase c then
    match u32_sub charcode 0x41 with
    | none => Except.error (Panic.mk "attempt to subtract with overflow")
    | some d =>
      match char_from_u32 ((d + 13) % 26 + 0x41) with
      | none => Except.error (Panic.mk "called Option unwrap on a None value")
      | some c2 => Except.ok c2
  else Except.ok c

/-- The `rot13_decode` loop over the characters of the input. -/
def rot13_list : List Char → Except Panic (List Char)
  | [] => Except.ok []
  | c :: cs =>
    match rot13_char c with
    | Except.error p => Except.error p
    | Except.ok c2 =>
      match rot13_list cs with
      | Except.error p => Except.error p
      | Except.ok cs2 => Except.ok (c2 :: cs2)

/-- Model of `rot13_decode` (src/lib.rs lines 143-166). -/
def rot13_decode (s : String) : Except Panic String :=
  match rot13_list s.data with
  | Except.error p => Except.error p
  | Except.ok cs => Except.ok (String.mk cs)

/- ## Base64

`base64_decode` / `base64_encode` (src/lib.rs lines 132-140 and 171-175) call
the `base64` crate's standard-alphabet, standard-padding codec — an external
dependency, embedded here from its documented behaviour: encode emits the
standard alphabet with `=` padding; decode rejects non-alphabet characters,
bad padding and non-zero trailing bits with a `DecodeError`. -/

/-- The standard base64 alphabet: sextet to character. -/
def b64EncTable (n : Nat) : Char :=
  if n < 26 then Char.ofNat (65 + n)
  else if n < 52 then Char.ofNat (97 + (n - 26))
  else if n < 62 then Char.ofNat (48 + (n - 52))
  else if n = 62 then '+'
  else '/'

/-- The standard base64 alphabet: character to sextet; `none` for a
non-alphabet character (`=` is handled by the padding logic, not here). -/
def b64DecTable (c : Char) : Option Nat :=
  let n := c.toNat
  if 65 ≤ n ∧ n ≤ 90 then some (n - 65)
  else if 97 ≤ n ∧ n ≤ 122 then some (n - 97 + 26)
  else if 48 ≤ n ∧ n ≤ 57 then some (n - 48 + 52)
  else if n = 43 then some 62
  else if n = 47 then some 63
  else none

/-- Standard base64 encoding of a byte sequence, three bytes to four
characters, with `=` padding on a final one- or two-byte group. -/
def b64EncodeBytes : List Nat → List Char
  | [] => []
  | [b1] => [b64EncTable (b1 / 4), b64EncTable (b1 % 4 * 16), '=', '=']
  | [b1, b2] => [b64EncTable (b1 / 4), b64EncTable (b1 % 4 * 16 + b2 / 16),
      b64EncTable (b2 % 16 * 4), '=']
  | b1 :: b2 :: b3 :: rest =>
    b64EncTable (b1 / 4) :: b64EncTable (b1 % 4 * 16 + b2 / 16) ::
    b64EncTable (b2 % 16 * 4 + b3 / 64) :: b64EncTable (b3 % 64) :: b64EncodeBytes rest

/-- Standard base64 decoding of a character sequence: groups of four
characters, `=` padding only in the final group, non-zero trailing bits and
non-alphabet characters rejected (`none` models the crate's `DecodeError`). -/
def b64DecodeChars : List Char → Option (List Nat)
  | [] => some []
  | c1 :: c2 :: c3 :: c4 :: rest =>
    (b64DecTable c1).bind fun x1 =>
    (b64DecTable c2).bind fun x2 =>
    if c3 = '=' then
      if c4 = '=' ∧ rest = [] then
        if x2 % 16 = 0 then some [x1 * 4 + x2 / 16] else none
      else none
    else
      (b64DecTable c3).bind fun x3 =>
      if c4 = '=' then
        if rest = [] then
          if x3 % 4 = 0 then some [x1 * 4 + x2 / 16, x2 % 16 * 16 + x3 / 4] else none
        else none
      else
        (b64DecTable c4).bind fun x4 =>
        (b64DecodeChars rest).map fun tail =>
          (x1 * 4 + x2 / 16) :: (x2 % 16 * 16 + x3 / 4) :: (x3 % 4 * 64 + x4) :: tail
  | _ => none

/- ## UTF-8 encoding and lossy decoding

`base64_encode` consumes `plaintext_msg.as_bytes()` (the UTF-8 bytes of the
input) and `base64_decode` renders the decoded bytes with
`String::from_utf8_lossy`.  The UTF-8 validation below follows Rust's
`core::str` validation, including its maximal-subpart replacement policy:
an invalid lead byte consumes one byte, an invalid or missing continuation
byte consumes the valid part of the sequence read so far, and each such
error contributes exactly one U+FFFD replacement character. -/

/-- A UTF-8 continuation byte: 0x80..0xBF. -/
def isCont (b : Nat) : Bool := decide (0x80 ≤ b ∧ b ≤ 0xBF)

/-- One step of Rust's UTF-8 scanner on lead byte `b` followed by `rest`:
`(some c, rest')` decodes one scalar value and leaves `rest'`; `(none, rest')`
is an invalid maximal subpart, already skipped, leaving `rest'`. -/
def utf8Step (b : Nat) (rest : List Nat) : Option Char × List Nat :=
  if b ≤ 0x7F then (char_from_u32 b, rest)
  else if b ≤ 0xC1 then (none, rest)
  else if b ≤ 0xDF then
    match rest with
    | b2 :: r2 =>
      if isCont b2 then (char_from_u32 ((b - 0xC0) * 64 + (b2 - 0x80)), r2)
      else (none, rest)
    | [] => (none, rest)
  else if b ≤ 0xEF then
    let lo := if b = 0xE0 then 0xA0 else 0x80
    let hi := if b = 0xED then 0x9F else 0xBF
    match rest with
    | b2 :: r2 =>
      if lo ≤ b2 ∧ b2 ≤ hi then
        match r2 with
        | b3 :: r3 =>
          if isCont b3 then
            (char_from_u32 ((b - 0xE0) * 4096 + (b2 - 0x80) * 64 + (b3 - 0x80)), r3)
          else (none, r2)
        | [] => (none, r2)
      else (none, rest)
    | [] => (none, rest)
  else if b ≤ 0xF4 then
    let lo := if b = 0xF0 then 0x90 else 0x80
    let hi := if b = 0xF4 then 0x8F else 0xBF
    match rest with
    | b2 :: r2 =>
      if lo ≤ b2 ∧ b2 ≤ hi then
        match r2 with
        | b3 :: r3 =>
          if isCont b3 then
            match r3 with
            | b4 :: r4 =>
              if isCont b4 then
                (char_from_u32 ((b - 0xF0) * 262144 + (b2 - 0x80) * 4096 +
                  (b3 - 0x80) * 64 + (b4 - 0x80)), r4)
              else (none, r3)
            | [] => (none, r3)
          else (none, r2)
        | [] => (none, r2)
      else (none, rest)
    | [] => (none, rest)
  else (none, rest)

/-- Fuel-indexed driver of the lossy decoder; fuel at least the list length is
always enough since each step consumes the lead byte. -/
def utf8LossyGo : Nat → List Nat → List Char
  | 0, _ => []
  | _ + 1, [] => []
  | fuel + 1, b :: rest =>
    let p := utf8Step b rest
    (p.1.getD (Char.ofNat 0xFFFD)) :: utf8LossyGo fuel p.2

/-- Model of `String::from_utf8_lossy` on a byte list: each invalid maximal
subpart becomes one U+FFFD replacement character. -/
def utf8Lossy (l : List Nat) : List Char := utf8LossyGo l.length l

/-- Fuel-indexed strict UTF-8 decoder: `none` exactly when the bytes are not
valid UTF-8. -/
def utf8StrictGo : Nat → List Nat → Option (List Char)
  | 0, [] => some []
  | 0, _ :: _ => none
  | _ + 1, [] => some []
  | fuel + 1, b :: rest =>
    let p := utf8Step b rest
    match p.1 with
    | none => none
    | some c => (utf8StrictGo fuel p.2).map fun cs => c :: cs

/-- Valid UTF-8, decided by the strict decoder. -/
def validUtf8 (l : List Nat) : Bool := (utf8StrictGo l.length l).isSome

/-- The UTF-8 bytes of one character (Rust's `char` encoding in `as_bytes`). -/
def utf8EncodeChar (c : Char) : List Nat :=
  let n := c.toNat
  if n ≤ 0x7F then [n]
  else if n ≤ 0x7FF then [0xC0 + n / 64, 0x80 + n % 64]
  else if n ≤ 0xFFFF then [0xE0 + n / 4096, 0x80 + n / 64 % 64, 0x80 + n % 64]
  else [0xF0 + n / 262144, 0x80 + n / 4096 % 64, 0x80 + n / 64 % 64, 0x80 + n % 64]

/-- The UTF-8 bytes of a character list (Rust's `str::as_bytes`). -/
def utf8Encode : List Char → List Nat
  | [] => []
  | c :: cs => utf8EncodeChar c ++ utf8Encode cs

/-- Model of `base64_encode` (src/lib.rs lines 171-175): `base64::encode` of
the UTF-8 bytes of the input; infallible. -/
def base64_encode (s : String) : String :=
  String.mk (b64EncodeBytes (utf8Encode s.data))

/-- Model of `base64_decode` (src/lib.rs lines 132-140): `base64::decode`
followed by `String::from_utf8_lossy`.  A `DecodeError` from the crate is met
with `.expect("Unable to decode provided string")` — a panic, modelled as
`Except.error`; on success the decoded bytes are converted lossily and
returned. -/
def base64_decode (s : String) : Except Panic String :=
  match b64DecodeChars s.data with
  | none => Except.error (Panic.mk "Unable to decode provided string")
  | some bytes => Except.ok (String.mk (utf8Lossy bytes))

/- ## Hex rendering of digests

`sha2_256_hash` and `md5_hash` (src/lib.rs lines 180-192) format the digest
with `format!("{:x}", hash)`; both digest types render each byte as two
lowercase hexadecimal digits. -/

/-- One lowercase hexadecimal digit (0-9, a-f). -/
def hexDigitChar (n : Nat) : Char :=
  if n < 10 then Char.ofNat (48 + n) else Char.ofNat (87 + n)

/-- The `{:x}` rendering of a byte sequence: each byte as two lowercase hex
digits. -/
def bytesToHexLower : List Nat → List Char
  | [] => []
  | b :: bs => hexDigitChar (b / 16 % 16) :: hexDigitChar (b % 16) :: bytesToHexLower bs

/-- Membership in the lowercase-hexadecimal character set. -/
def isLowerHexChar (c : Char) : Bool :=
  decide ((48 ≤ c.toNat ∧ c.toNat ≤ 57) ∨ (97 ≤ c.toNat ∧ c.toNat ≤ 102))

/- ## SHA-256

The `sha2` crate's SHA-256 (FIPS 180-4), an external dependency of
`sha2_256_hash` (src/lib.rs lines 180-186), embedded in full: message padding,
message schedule, 64 compression rounds, big-endian words. -/

/-- 32-bit right rotation. -/
def rotr32 (n x : Nat) : Nat := ((x >>> n) ||| (x <<< (32 - n))) % 4294967296

/-- 32-bit left rotation. -/
def rotl32 (n x : Nat) : Nat := ((x <<< n) ||| (x >>> (32 - n))) % 4294967296

def shaBigSigma0 (x : Nat) : Nat := rotr32 2 x ^^^ rotr32 13 x ^^^ rotr32 22 x

def shaBigSigma1 (x : Nat) : Nat := rotr32 6 x ^^^ rotr32 11 x ^^^ rotr32 25 x

def shaSmallSigma0 (x : Nat) : Nat := rotr32 7 x ^^^ rotr32 18 x ^^^ (x >>> 3)

def shaSmallSigma1 (x : Nat) : Nat := rotr32 17 x ^^^ rotr32 19 x ^^^ (x >>> 10)

def shaCh (x y z : Nat) : Nat := (x &&& y) ^^^ ((x ^^^ 0xFFFFFFFF) &&& z)

def shaMaj (x y z : Nat) : Nat := (x &&& y) ^^^ (x &&& z) ^^^ (y &&& z)

/-- The SHA-256 round constants. -/
def shaK : List Nat :=
  [1116352408, 1899447441, 3049323471, 3921009573, 961987163, 1508970993,
   2453635748, 2870763221, 3624381080, 310598401, 607225278, 1426881987,
   1925078388, 2162078206, 2614888103, 3248222580, 3835390401, 4022224774,
   264347078, 604807628, 770255983, 1249150122, 1555081692, 1996064986,
   2554220882, 2821834349, 2952996808, 3210313671, 3336571891, 3584528711,
   113926993, 338241895, 666307205, 773529912, 1294757372, 1396182291,
   1695183700, 1986661051, 2177026350, 2456956037, 2730485921, 2820302411,
   3259730800, 3345764771, 3516065817, 3600352804, 4094571909, 275423344,
   430227734, 506948616, 659060556, 883997877, 958139571, 1322822218,
   1537002063, 1747873779, 1955562222, 2024104815, 2227730452, 2361852424,
   2428436474, 2756734187, 3204031479, 3329325298]

/-- The SHA-256 working state: eight 32-bit words. -/
structure Sha256State where
  a : Nat
  b : Nat
  c : Nat
  d : Nat
  e : Nat
  f : Nat
  g : Nat
  h : Nat

/-- The SHA-256 initial hash value. -/
def sha256Init : Sha256State :=
  ⟨1779033703, 3144134277, 1013904242, 2773480762,
   1359893119, 2600822924, 528734635, 1541459225⟩

/-- One SHA-256 compression round with round constant `kw` and schedule word `w`. -/
def sha256Round (st : Sha256State) (kw w : Nat) : Sha256State :=
  let t1 := (st.h + shaBigSigma1 st.e + shaCh st.e st.f st.g + kw + w) % 4294967296
  let t2 := (shaBigSigma0 st.a + shaMaj st.a st.b st.c) % 4294967296
  { a := (t1 + t2) % 4294967296, b := st.a, c := st.b, d := st.c,
    e := (st.d + t1) % 4294967296, f := st.e, g := st.f, h := st.g }

/-- Extension of the 16-word block to the 64-word message schedule, one
appended word per step. -/
def sha256Extend (w : List Nat) : Nat → List Nat
  | 0 => w
  | n + 1 =>
    let len := w.length
    let nw := (shaSmallSigma1 (w.getD (len - 2) 0) + w.getD (len - 7) 0 +
      shaSmallSigma0 (w.getD (len - 15) 0) + w.getD (len - 16) 0) % 4294967296
    sha256Extend (w ++ [nw]) n

/-- One SHA-256 block compression: schedule, 64 rounds, feed-forward add. -/
def sha256Compress (st : Sha256State) (block : List Nat) : Sha256State :=
  let w := sha256Extend block 48
  let fin := (shaK.zip w).foldl (fun s p => sha256Round s p.1 p.2) st
  { a := (st.a + fin.a) % 4294967296, b := (st.b + fin.b) % 4294967296,
    c := (st.c + fin.c) % 4294967296, d := (st.d + fin.d) % 4294967296,
    e := (st.e + fin.e) % 4294967296, f := (st.f + fin.f) % 4294967296,
    g := (st.g + fin.g) % 4294967296, h := (st.h + fin.h) % 4294967296 }

/-- Big-endian 32-bit words from bytes, four at a time. -/
def bytesToWordsBE : List Nat → List Nat
  | b1 :: b2 :: b3 :: b4 :: rest =>
    (b1 * 16777216 + b2 * 65536 + b3 * 256 + b4) :: bytesToWordsBE rest
  | _ => []

/-- The four big-endian bytes of a 32-bit word. -/
def wordBytesBE (w : Nat) : List Nat :=
  [w / 16777216 % 256, w / 65536 % 256, w / 256 % 256, w % 256]

/-- The eight big-endian bytes of a 64-bit length. -/
def lenBytesBE (n : Nat) : List Nat :=
  [n / 72057594037927936 % 256, n / 281474976710656 % 256, n / 1099511627776 % 256,
   n / 4294967296 % 256, n / 16777216 % 256, n / 65536 % 256, n / 256 % 256, n % 256]

/-- Merkle-Damgard padding shared by SHA-256 and MD5: a 0x80 byte, zeros to 56
mod 64, then the 8-byte bit length (big- or little-endian per `lenBytes`). -/
def mdPad (lenBytes : Nat → List Nat) (msg : List Nat) : List Nat :=
  msg ++ 0x80 :: List.replicate ((119 - msg.length % 64) % 64) 0 ++ lenBytes (msg.length * 8)

/-- Fuel-indexed split of a padded message into 16-word blocks (64 bytes each). -/
def mdBlocks (toWords : List Nat → List Nat) : Nat → List Nat → List (List Nat)
  | 0, _ => []
  | _ + 1, [] => []
  | fuel + 1, bs => toWords (bs.take 64) :: mdBlocks toWords fuel (bs.drop 64)

/-- The SHA-256 digest (32 bytes) of a byte message. -/
def sha2_256_digest (msg : List Nat) : List Nat :=
  let padded := mdPad lenBytesBE msg
  let blocks := mdBlocks bytesToWordsBE padded.length padded
  let st := blocks.foldl sha256Compress sha256Init
  wordBytesBE st.a ++ wordBytesBE st.b ++ wordBytesBE st.c ++ wordBytesBE st.d ++
  wordBytesBE st.e ++ wordBytesBE st.f ++ wordBytesBE st.g ++ wordBytesBE st.h

/-- Model of `sha2_256_hash` (src/lib.rs lines 180-186): SHA-256 of the UTF-8
bytes of the input, rendered as lowercase hexadecimal by `format!("{:x}", ..)`. -/
def sha2_256_hash (s : String) : String :=
  String.mk (bytesToHexLower (sha2_256_digest (utf8Encode s.data)))

/- ## MD5

The `md5` crate's MD5 (RFC 1321), an external dependency of `md5_hash`
(src/lib.rs lines 189-192), embedded in full: little-endian words, 64 rounds. -/

/-- The MD5 sine-table constants. -/
def md5K : List Nat :=
  [0xd76aa478, 0xe8c7b756, 0x242070db, 0xc1bdceee, 0xf57c0faf, 0x4787c62a,
   0xa8304613, 0xfd469501, 0x698098d8, 0x8b44f7af, 0xffff5bb1, 0x895cd7be,
   0x6b901122, 0xfd987193, 0xa679438e, 0x49b40821, 0xf61e2562, 0xc040b340,
   0x265e5a51, 0xe9b6c7aa, 0xd62f105d, 0x02441453, 0xd8a1e681, 0xe7d3fbc8,
   0x21e1cde6, 0xc33707d6, 0xf4d50d87, 0x455a14ed, 0xa9e3e905, 0xfcefa3f8,
   0x676f02d9, 0x8d2a4c8a, 0xfffa3942, 0x8771f681, 0x6d9d6122, 0xfde5380c,
   0xa4beea44, 0x4bdecfa9, 0xf6bb4b60, 0xbebfbc70, 0x289b7ec6, 0xeaa127fa,
   0xd4ef3085, 0x04881d05, 0xd9d4d039, 0xe6db99e5, 0x1fa27cf8, 0xc4ac5665,
   0xf4292244, 0x432aff97, 0xab9423a7, 0xfc93a039, 0x655b59c3, 0x8f0ccc92,
   0xffeff47d, 0x85845dd1, 0x6fa87e4f, 0xfe2ce6e0, 0xa3014314, 0x4e0811a1,
   0xf7537e82, 0xbd3af235, 0x2ad7d2bb, 0xeb86d391]

/-- The MD5 per-round left-rotation amounts. -/
def md5S : List Nat :=
  [7, 12, 17, 22, 7, 12, 17, 22, 7, 12, 17, 22, 7, 12, 17, 22,
   5, 9, 14, 20, 5, 9, 14, 20, 5, 9, 14, 20, 5, 9, 14, 20,
   4, 11, 16, 23, 4, 11, 16, 23, 4, 11, 16, 23, 4, 11, 16, 23,
   6, 10, 15, 21, 6, 10, 15, 21, 6, 10, 15, 21, 6, 10, 15, 21]

/-- The MD5 working state: four 32-bit words. -/
structure Md5State where
  a : Nat
  b : Nat
  c : Nat
  d : Nat

/-- The MD5 initial state. -/
def md5Init : Md5State := ⟨0x67452301, 0xefcdab89, 0x98badcfe, 0x10325476⟩

/-- The MD5 round function for round `i` applied to `b`, `c`, `d`. -/
def md5F (i b c d : Nat) : Nat :=
  if i < 16 then (b &&& c) ||| ((b ^^^ 0xFFFFFFFF) &&& d)
  else if i < 32 then (d &&& b) ||| ((d ^^^ 0xFFFFFFFF) &&& c)
  else if i < 48 then b ^^^ c ^^^ d
  else c ^^^ (b ||| (d ^^^ 0xFFFFFFFF))

/-- The MD5 message-word index for round `i`. -/
def md5G (i : Nat) : Nat :=
  if i < 16 then i
  else if i < 32 then (5 * i + 1) % 16
  else if i < 48 then (3 * i + 5) % 16
  else 7 * i % 16

/-- One MD5 round on block `m`. -/
def md5Round (m : List Nat) (st : Md5State) (i : Nat) : Md5State :=
  let f := (md5F i st.b st.c st.d + st.a + md5K.getD i 0 + m.getD (md5G i) 0) % 4294967296
  { a := st.d, b := (st.b + rotl32 (md5S.getD i 0) f) % 4294967296, c := st.b, d := st.c }

/-- One MD5 block compression: 64 rounds, feed-forward add. -/
def md5Compress (st : Md5State) (block : List Nat) : Md5State :=
  let fin := (List.range 64).foldl (md5Round block) st
  { a := (st.a + fin.a) % 4294967296, b := (st.b + fin.b) % 4294967296,
    c := (st.c + fin.c) % 4294967296, d := (st.d + fin.d) % 4294967296 }

/-- Little-endian 32-bit words from bytes, four at a time. -/
def bytesToWordsLE : List Nat → List Nat
  | b1 :: b2 :: b3 :: b4 :: rest =>
    (b1 + b2 * 256 + b3 * 65536 + b4 * 16777216) :: bytesToWordsLE rest
  | _ => []

/-- The four little-endian bytes of a 32-bit word. -/
def wordBytesLE (w : Nat) : List Nat :=
  [w % 256, w / 256 % 256, w / 65536 % 256, w / 16777216 % 256]

/-- The eight little-endian bytes of a 64-bit length. -/
def lenBytesLE (n : Nat) : List Nat :=
  [n % 256, n / 256 % 256, n / 65536 % 256, n / 16777216 % 256, n / 4294967296 % 256,
   n / 1099511627776 % 256, n / 281474976710656 % 256, n / 72057594037927936 % 256]

/-- The MD5 digest (16 bytes) of a byte message. -/
def md5_digest (msg : List Nat) : List Nat :=
  let padded := mdPad lenBytesLE msg
  let blocks := mdBlocks bytesToWordsLE padded.length padded
  let st := blocks.foldl md5Compress md5Init
  wordBytesLE st.a ++ wordBytesLE st.b ++ wordBytesLE st.c ++ wordBytesLE st.d

/-- Model of `md5_hash` (src/lib.rs lines 189-192): MD5 of the UTF-8 bytes of
the input, rendered as lowercase hexadecimal by `format!("{:x}", ..)`. -/
def md5_hash (s : String) : String :=
  String.mk (bytesToHexLower (md5_digest (utf8Encode s.data)))

/-! ## Theorems -/

/-- Helper: `Char.ofNat` at a valid code point has that code point as `toNat`. -/
theorem char_toNat_ofNat (n : Nat) (h : Nat.isValidChar n) : (Char.ofNat n).toNat = n := by
  simp [Char.ofNat, h, Char.ofNatAux, Char.toNat]
  rfl

/-- Helper: rebuilding a `Char` from its own code point gives the same `Char`. -/
theorem char_ofNat_toNat (c : Char) : Char.ofNat c.toNat = c := by
  have h : Nat.isValidChar c.toNat := c.valid
  apply Char.eq_of_val_eq
  apply UInt32.eq_of_toBitVec_eq
  apply BitVec.eq_of_toNat_eq
  unfold Char.ofNat
  rw [dif_pos h]
  rfl

/-- Helper: `char_from_u32` succeeds on every code point below the surrogate range. -/
theorem char_from_u32_small (n : Nat) (h : n < 0xD800) :
    char_from_u32 n = some (Char.ofNat n) := by
  rw [char_from_u32, dif_pos (Or.inl h)]

theorem Json.eqStr_iff (j : Json) (lit : String) : j.eqStr lit = true ↔ j = .str lit := by
  cases j <;> simp [Json.eqStr]


/-- Helper: the full lookup pipeline returns the classification of the parsed
document and removes the temporary file, when every step succeeds. -/
theorem malicious_domain_status_ok (env : LookupEnv) (tmp : Option String)
    (body : String) (j : Json) (hc : env.createOk = true) (hr : env.removeOk = true)
    (hresp : env.resp = Except.ok body) (hparse : env.parse body = some j) :
    malicious_domain_status env tmp = (Except.ok (classify_json j), none) := by
  unfold malicious_domain_status url_request
  rw [if_pos hc, hresp]
  simp [hparse, hr]

/-- C1: for every response document, the lookup inspects
`json["data"][0]["classification"]` and maps it by exact string match —
MALICIOUS to Malicious, UNKNOWN to Unknown, SUSPICIOUS to Suspicious, and
anything else (a missing `data` field or an empty array included) to the
unclassified outcome, rendered by the code as the string
"No classification available". -/
theorem domain_classification_mapping (j : Json) :
    (classify_json j = "Malicious" ↔ firstClassification j = Json.str "MALICIOUS") ∧
    (classify_json j = "Unknown" ↔ firstClassification j = Json.str "UNKNOWN") ∧
    (classify_json j = "Suspicious" ↔ firstClassification j = Json.str "SUSPICIOUS") ∧
    (firstClassification j ≠ Json.str "MALICIOUS" →
      firstClassification j ≠ Json.str "UNKNOWN" →
      firstClassification j ≠ Json.str "SUSPICIOUS" →
      classify_json j = "No classification available") ∧
    (Json.getField j "data" = Json.arr [] →
      classify_json j = "No classification available") ∧
    (Json.getField j "data" = Json.null →
      classify_json j = "No classification available") ∧
    (∀ env : LookupEnv, ∀ tmp : Option String, ∀ body : String,
      env.createOk = true → env.removeOk = true → env.resp = Except.ok body →
      env.parse body = some j →
      malicious_domain_status env tmp = (Except.ok (classify_json j), none)) := by
  have hM := Json.eqStr_iff (firstClassification j) "MALICIOUS"
  have hU := Json.eqStr_iff (firstClassification j) "UNKNOWN"
  have hS := Json.eqStr_iff (firstClassification j) "SUSPICIOUS"
  refine ⟨?_, ?_, ?_, ?_, ?_, ?_,
    fun env tmp body hc hr hresp hparse =>
      malicious_domain_status_ok env tmp body j hc hr hresp hparse⟩
  · unfold classify_json
    cases hm : (firstClassification j).eqStr "MALICIOUS" <;>
      cases hu : (firstClassification j).eqStr "UNKNOWN" <;>
        cases hs : (firstClassification j).eqStr "SUSPICIOUS" <;> simp_all
  · unfold classify_json
    cases hm : (firstClassification j).eqStr "MALICIOUS" <;>
      cases hu : (firstClassification j).eqStr "UNKNOWN" <;>
        cases hs : (firstClassification j).eqStr "SUSPICIOUS" <;> simp_all
  · unfold classify_json
    cases hm : (firstClassification j).eqStr "MALICIOUS" <;>
      cases hu : (firstClassification j).eqStr "UNKNOWN" <;>
        cases hs : (firstClassification j).eqStr "SUSPICIOUS" <;> simp_all
  · intro h1 h2 h3
    unfold classify_json
    cases hm : (firstClassification j).eqStr "MALICIOUS" <;>
      cases hu : (firstClassification j).eqStr "UNKNOWN" <;>
        cases hs : (firstClassification j).eqStr "SUSPICIOUS" <;> simp_all
  · intro hd
    have hf : firstClassification j = Json.null := by
      unfold firstClassification
      rw [hd]
      rfl
    simp [classify_json, hf, Json.eqStr]
  · intro hd
    have hf : firstClassification j = Json.null := by
      unfold firstClassification
      rw [hd]
      rfl
    simp [classify_json, hf, Json.eqStr]

/-- C1 witness: a concrete document with an empty `data` array maps to the
unclassified outcome, and a concrete malicious document runs through the whole
pipeline. -/
theorem domain_classification_mapping_witness :
    classify_json (Json.obj [("data", Json.arr [])]) = "No classification available" ∧
    malicious_domain_status
        { resp := Except.ok "stub",
          parse := fun _ =>
            some (Json.obj [("data", Json.arr [Json.obj [("classification", Json.str "MALICIOUS")]])]),
          createOk := true, removeOk := true } none =
      (Except.ok (classify_json
        (Json.obj [("data", Json.arr [Json.obj [("classification", Json.str "MALICIOUS")]])])), none) :=
  ⟨(domain_classification_mapping (Json.obj [("data", Json.arr [])])).2.2.2.2.1 rfl,
   (domain_classification_mapping
      (Json.obj [("data", Json.arr [Json.obj [("classification", Json.str "MALICIOUS")]])])).2.2.2.2.2.2
      _ none "stub" rfl rfl rfl rfl⟩

/-- C2 (code bug): on a response body that fails to parse, the call panics at
the `serde_json::from_str(..).unwrap()` and the temporary artifact
`/tmp/mercy_domain_review.json` is left in place — cleanup is NOT guaranteed
when a later step fails, contradicting the claimed scoped-resource invariant. -/
theorem malicious_parse_failure_leaks_artifact :
    malicious_domain_status
        { resp := Except.ok "not json", parse := fun _ => none,
          createOk := true, removeOk := true } none =
      (Except.error (Panic.mk "called Result unwrap on an Err value"), some "not json") := rfl

/-- C3: the hex-dump operation on a path that does not exist returns the fixed
not-found message — the code's rendering of the NotFound condition — as a
normal result, and never panics. -/
theorem hex_dump_missing_file (fs : String → Option (List Nat)) (p : String)
    (h : fs p = none) :
    collect_file_hex fs p = Except.ok "Unable to locate the file specified" := by
  simp [collect_file_hex, h]

/-- C3 witness: the empty filesystem and a concrete path. -/
theorem hex_dump_missing_file_witness :
    collect_file_hex (fun _ => none) "/no/such/file" =
      Except.ok "Unable to locate the file specified" :=
  hex_dump_missing_file (fun _ => none) "/no/such/file" rfl

/-- C8 (amended): the host-info sub-operations do NOT fail independently — the
implementation eagerly evaluates the `all_system_info` format string, querying
all five values, before matching the selector, so every request fails as soon
as any of the five queries fails; when all five are available each request
succeeds with the requested value. -/
theorem system_info_eager_coupling (env : SysEnv) (hn : String) (cn cs : Nat)
    (osr : String) (pt : Nat)
    (h1 : env.hostname = some hn) (h2 : env.cpu_num = some cn)
    (h3 : env.cpu_speed = some cs) (h4 : env.os_release = some osr)
    (h5 : env.proc_total = some pt) :
    system_info env "hostname" = Except.ok ("Hostname: " ++ hn) ∧
    system_info env "cpu_cores" = Except.ok ("Number of CPU cores: " ++ toString cn) ∧
    system_info env "cpu_speed" = Except.ok ("CPU Fan Speed: " ++ toString cs ++ " MHz") ∧
    system_info env "os_release" = Except.ok ("Operating System Release Version: " ++ osr) ∧
    system_info env "proc" = Except.ok ("Number of Processes: " ++ toString pt) ∧
    (∀ env2 : SysEnv, ∀ sel : String, env2.cpu_speed = none →
      system_info env2 sel = Except.error (Panic.mk "called Result unwrap on an Err value")) := by
  refine ⟨?_, ?_, ?_, ?_, ?_, ?_⟩
  · simp [system_info, h1, h2, h3, h4, h5, unwrapO, Bind.bind, Except.bind, Pure.pure, Except.pure]
  · simp [system_info, h1, h2, h3, h4, h5, unwrapO, Bind.bind, Except.bind, Pure.pure, Except.pure]
  · simp [system_info, h1, h2, h3, h4, h5, unwrapO, Bind.bind, Except.bind, Pure.pure, Except.pure]
  · simp [system_info, h1, h2, h3, h4, h5, unwrapO, Bind.bind, Except.bind, Pure.pure, Except.pure]
  · simp [system_info, h1, h2, h3, h4, h5, unwrapO, Bind.bind, Except.bind, Pure.pure, Except.pure]
  · intro env2 sel hcs
    cases hh : env2.hostname <;> cases hcn : env2.cpu_num <;>
      simp [system_info, hh, hcn, hcs, unwrapO, Bind.bind, Except.bind, Pure.pure, Except.pure]

/-- C8 witness: a host exposing all five values answers a hostname request and
a cpu-speed request with exactly the requested value. -/
theorem system_info_eager_coupling_witness :
    system_info (SysEnv.mk (some "box") (some 8) (some 2400) (some "6.1") (some 123))
        "hostname" = Except.ok ("Hostname: " ++ "box") ∧
    system_info (SysEnv.mk (some "box") (some 8) (some 2400) (some "6.1") (some 123))
        "cpu_speed" = Except.ok ("CPU Fan Speed: " ++ toString 2400 ++ " MHz") :=
  ⟨(system_info_eager_coupling _ "box" 8 2400 "6.1" 123 rfl rfl rfl rfl rfl).1,
   (system_info_eager_coupling _ "box" 8 2400 "6.1" 123 rfl rfl rfl rfl rfl).2.2.1⟩

/-- C8 counterexample: a host whose hostname query succeeds but whose CPU-speed
query fails makes the hostname request itself panic, refuting the claimed
independence of the sub-operations. -/
theorem system_info_independence_cex :
    (SysEnv.mk (some "host") (some 4) none (some "6.1") (some 99)).hostname = some "host" ∧
    system_info (SysEnv.mk (some "host") (some 4) none (some "6.1") (some 99)) "hostname" =
      Except.error (Panic.mk "called Result unwrap on an Err value") :=
  ⟨rfl, rfl⟩

/-- Helper: every interval of the Unicode lowercase table starts at or above
the code point of `'a'` (U+0061 is the least `Lowercase` character). -/
theorem lowercaseRanges_ge : ∀ p ∈ lowercaseRanges, 97 ≤ p.1 := by decide

/-- Helper: every interval of the Unicode uppercase table starts at or above
the code point of `'A'` (U+0041 is the least `Uppercase` character). -/
theorem uppercaseRanges_ge : ∀ p ∈ uppercaseRanges, 65 ≤ p.1 := by decide

/-- Helper: the only interval of the lowercase table reaching below U+00AA is
the ASCII letter range a-z. -/
theorem lowercaseRanges_shape : ∀ p ∈ lowercaseRanges,
    (p.1 = 97 ∧ p.2 = 122) ∨ 170 ≤ p.1 := by decide

/-- Helper: the only interval of the uppercase table reaching below U+00C0 is
the ASCII letter range A-Z. -/
theorem uppercaseRanges_shape : ∀ p ∈ uppercaseRanges,
    (p.1 = 65 ∧ p.2 = 90) ∨ 192 ≤ p.1 := by decide

/-- Helper: every character the code classifies as lowercase has code point at
least that of `'a'`, so the `charcode - 'a'` subtraction cannot underflow. -/
theorem rustIsLowercase_ge (c : Char) (h : rustIsLowercase c = true) : 0x61 ≤ c.toNat := by
  simp only [rustIsLowercase, List.any_eq_true, decide_eq_true_eq] at h
  obtain ⟨p, hp, h1, h2⟩ := h
  have := lowercaseRanges_ge p hp
  omega

/-- Helper: every character the code classifies as uppercase has code point at
least that of `'A'`. -/
theorem rustIsUppercase_ge (c : Char) (h : rustIsUppercase c = true) : 0x41 ≤ c.toNat := by
  simp only [rustIsUppercase, List.any_eq_true, decide_eq_true_eq] at h
  obtain ⟨p, hp, h1, h2⟩ := h
  have := uppercaseRanges_ge p hp
  omega

/-- Helper: the rot13 step on a character the code classifies as lowercase. -/
theorem rot13_char_of_lowercase (c : Char) (hl : rustIsLowercase c = true) :
    rot13_char c = Except.ok (Char.ofNat ((c.toNat - 0x61 + 13) % 26 + 0x61)) := by
  have h1 := rustIsLowercase_ge c hl
  have hv : char_from_u32 ((c.toNat - 0x61 + 13) % 26 + 0x61) =
      some (Char.ofNat ((c.toNat - 0x61 + 13) % 26 + 0x61)) := char_from_u32_small _ (by omega)
  simp [rot13_char, hl, u32_sub, h1, hv]

/-- Helper: the rot13 step on a character the code classifies as uppercase. -/
theorem rot13_char_of_uppercase (c : Char) (hl : rustIsLowercase c = false)
    (hu : rustIsUppercase c = true) :
    rot13_char c = Except.ok (Char.ofNat ((c.toNat - 0x41 + 13) % 26 + 0x41)) := by
  have h1 := rustIsUppercase_ge c hu
  have hv : char_from_u32 ((c.toNat - 0x41 + 13) % 26 + 0x41) =
      some (Char.ofNat ((c.toNat - 0x41 + 13) % 26 + 0x41)) := char_from_u32_small _ (by omega)
  simp [rot13_char, hl, hu, u32_sub, h1, hv]

/-- Helper: the rot13 step passes an uncased character through unchanged. -/
theorem rot13_char_of_uncased (c : Char) (hl : rustIsLowercase c = false)
    (hu : rustIsUppercase c = false) : rot13_char c = Except.ok c := by
  unfold rot13_char
  rw [if_neg (by simp [hl]), if_neg (by simp [hu])]

/-- Helper: the rot13 step never panics on any character. -/
theorem rot13_char_total (c : Char) : ∃ c2, rot13_char c = Except.ok c2 := by
  cases hl : rustIsLowercase c
  · cases hu : rustIsUppercase c
    · exact ⟨c, rot13_char_of_uncased c hl hu⟩
    · exact ⟨_, rot13_char_of_uppercase c hl hu⟩
  · exact ⟨_, rot13_char_of_lowercase c hl⟩

/-- Helper: the rot13 loop never panics on any character list. -/
theorem rot13_list_total (l : List Char) : ∃ l2, rot13_list l = Except.ok l2 := by
  induction l with
  | nil => exact ⟨[], rfl⟩
  | cons c cs ih =>
    obtain ⟨c2, hc⟩ := rot13_char_total c
    obtain ⟨cs2, hcs⟩ := ih
    exact ⟨c2 :: cs2, by simp [rot13_list, hc, hcs]⟩

/-- Helper: on an ASCII character the case tables coincide with the ASCII
letter ranges. -/
theorem rustIsLowercase_ascii (c : Char) (h : c.toNat < 128) :
    rustIsLowercase c = true ↔ (0x61 ≤ c.toNat ∧ c.toNat ≤ 0x7A) := by
  simp only [rustIsLowercase, List.any_eq_true, decide_eq_true_eq]
  constructor
  · rintro ⟨p, hp, h1, h2⟩
    rcases lowercaseRanges_shape p hp with ⟨ha, hb⟩ | hge <;> omega
  · intro hn
    exact ⟨(97, 122), by decide, by omega, by omega⟩

/-- Helper: ASCII reading of the uppercase table. -/
theorem rustIsUppercase_ascii (c : Char) (h : c.toNat < 128) :
    rustIsUppercase c = true ↔ (0x41 ≤ c.toNat ∧ c.toNat ≤ 0x5A) := by
  simp only [rustIsUppercase, List.any_eq_true, decide_eq_true_eq]
  constructor
  · rintro ⟨p, hp, h1, h2⟩
    rcases uppercaseRanges_shape p hp with ⟨ha, hb⟩ | hge <;> omega
  · intro hn
    exact ⟨(65, 90), by decide, by omega, by omega⟩

/-- Helper: on an ASCII character, the rot13 step produces an ASCII character
and applying it again restores the original. -/
theorem rot13_char_invol_ascii (c : Char) (hc : c.toNat < 128) :
    ∃ c2, rot13_char c = Except.ok c2 ∧ c2.toNat < 128 ∧ rot13_char c2 = Except.ok c := by
  by_cases hlow : 0x61 ≤ c.toNat ∧ c.toNat ≤ 0x7A
  · have hl : rustIsLowercase c = true := (rustIsLowercase_ascii c hc).2 hlow
    have hmval : (Char.ofNat ((c.toNat - 0x61 + 13) % 26 + 0x61)).toNat =
        (c.toNat - 0x61 + 13) % 26 + 0x61 :=
      char_toNat_ofNat _ (Or.inl (by omega))
    have hl2 : rustIsLowercase (Char.ofNat ((c.toNat - 0x61 + 13) % 26 + 0x61)) = true := by
      rw [rustIsLowercase_ascii _ (by rw [hmval]; omega), hmval]
      omega
    refine ⟨_, rot13_char_of_lowercase c hl, by rw [hmval]; omega, ?_⟩
    rw [rot13_char_of_lowercase _ hl2, hmval]
    have harith : ((c.toNat - 0x61 + 13) % 26 + 0x61 - 0x61 + 13) % 26 + 0x61 = c.toNat := by
      omega
    rw [harith, char_ofNat_toNat]
  · by_cases hup : 0x41 ≤ c.toNat ∧ c.toNat ≤ 0x5A
    · have hl : rustIsLowercase c = false := by
        cases hb : rustIsLowercase c
        · rfl
        · exact absurd ((rustIsLowercase_ascii c hc).1 hb) hlow
      have hu : rustIsUppercase c = true := (rustIsUppercase_ascii c hc).2 hup
      have hmval : (Char.ofNat ((c.toNat - 0x41 + 13) % 26 + 0x41)).toNat =
          (c.toNat - 0x41 + 13) % 26 + 0x41 :=
        char_toNat_ofNat _ (Or.inl (by omega))
      have hl2 : rustIsLowercase (Char.ofNat ((c.toNat - 0x41 + 13) % 26 + 0x41)) = false := by
        cases hb : rustIsLowercase (Char.ofNat ((c.toNat - 0x41 + 13) % 26 + 0x41))
        · rfl
        · have := (rustIsLowercase_ascii _ (by rw [hmval]; omega)).1 hb
          rw [hmval] at this
          omega
      have hu2 : rustIsUppercase (Char.ofNat ((c.toNat - 0x41 + 13) % 26 + 0x41)) = true := by
        rw [rustIsUppercase_ascii _ (by rw [hmval]; omega), hmval]
        omega
      refine ⟨_, rot13_char_of_uppercase c hl hu, by rw [hmval]; omega, ?_⟩
      rw [rot13_char_of_uppercase _ hl2 hu2, hmval]
      have harith : ((c.toNat - 0x41 + 13) % 26 + 0x41 - 0x41 + 13) % 26 + 0x41 = c.toNat := by
        omega
      rw [harith, char_ofNat_toNat]
    · have hl : rustIsLowercase c = false := by
        cases hb : rustIsLowercase c
        · rfl
        · exact absurd ((rustIsLowercase_ascii c hc).1 hb) hlow
      have hu : rustIsUppercase c = false := by
        cases hb : rustIsUppercase c
        · rfl
        · exact absurd ((rustIsUppercase_ascii c hc).1 hb) hup
      exact ⟨c, rot13_char_of_uncased c hl hu, hc, rot13_char_of_uncased c hl hu⟩

/-- Helper: the rot13 loop is an involution on ASCII character lists. -/
theorem rot13_list_invol_ascii (l : List Char) (h : ∀ c ∈ l, c.toNat < 128) :
    ∃ l2, rot13_list l = Except.ok l2 ∧ rot13_list l2 = Except.ok l := by
  induction l with
  | nil => exact ⟨[], rfl, rfl⟩
  | cons c cs ih =>
    obtain ⟨c2, hc, _, hcc⟩ := rot13_char_invol_ascii c (h c (by simp))
    obtain ⟨cs2, h1, h2⟩ := ih (fun x hx => h x (by simp [hx]))
    exact ⟨c2 :: cs2, by simp [rot13_list, hc, h1], by simp [rot13_list, hcc, h2]⟩

/-- C5 (amended): on ASCII strings `rot13_decode` is an involution, shifting
each ASCII letter by 13 within its case range and passing every character the
code treats as uncased through unchanged.  The restriction to ASCII is forced:
the source classifies characters with the Unicode-aware
`char::is_lowercase`/`is_uppercase` but subtracts the ASCII base, so a
non-ASCII letter is mapped out of its own range (see the counterexample). -/
theorem rot13_ascii_involution (s : String) (h : ∀ c ∈ s.data, c.toNat < 128) :
    (∃ t, rot13_decode s = Except.ok t ∧ rot13_decode t = Except.ok s) ∧
    (∀ c : Char, 0x61 ≤ c.toNat → c.toNat ≤ 0x7A →
      rot13_char c = Except.ok (Char.ofNat ((c.toNat - 0x61 + 13) % 26 + 0x61))) ∧
    (∀ c : Char, rustIsLowercase c = false → rustIsUppercase c = false →
      rot13_char c = Except.ok c) := by
  refine ⟨?_, ?_, fun c hl hu => rot13_char_of_uncased c hl hu⟩
  · obtain ⟨l2, h1, h2⟩ := rot13_list_invol_ascii s.data h
    refine ⟨String.mk l2, ?_, ?_⟩
    · unfold rot13_decode
      rw [h1]
    · unfold rot13_decode
      rw [show (String.mk l2).data = l2 from rfl, h2]
  · intro c h1 h2
    exact rot13_char_of_lowercase c ((rustIsLowercase_ascii c (by omega)).2 ⟨h1, h2⟩)

/-- C5 witness: a concrete ASCII string round-trips through rot13. -/
theorem rot13_ascii_involution_witness :
    ∃ t, rot13_decode "Hello, World!" = Except.ok t ∧
      rot13_decode t = Except.ok "Hello, World!" :=
  (rot13_ascii_involution "Hello, World!" (by decide)).1

/-- C5 counterexample: the claim quantifies over all strings, but on the
non-ASCII lowercase letter U+00E9 the transform leaves the case range
(producing `'t'`) and applying rot13 twice yields `"g"`, not the original
string — rot13 as implemented is not an involution on all strings. -/
theorem rot13_involution_cex :
    rot13_decode "é" = Except.ok "t" ∧ rot13_decode "t" = Except.ok "g" ∧
      ("g" : String) ≠ "é" := by
  refine ⟨by decide, by decide, by decide⟩

/-- C9: the rot13 transform is total — for every input string, including
strings with non-ASCII alphabetic characters, it returns normally: the
`charcode - base` subtraction never underflows (every character classified as
cased has code point at least the subtracted base) and the shifted code point
is always a valid scalar value, so `char::from_u32(..).unwrap()` never
panics. -/
theorem rot13_total_never_panics (s : String) : ∃ t, rot13_decode s = Except.ok t := by
  obtain ⟨l2, hl⟩ := rot13_list_total s.data
  exact ⟨String.mk l2, by unfold rot13_decode; rw [hl]⟩

/-- Helper: decoding inverts the standard alphabet on every sextet. -/
theorem b64_dec_enc : ∀ x : Nat, x < 64 → b64DecTable (b64EncTable x) = some x := by decide

/-- Helper: no alphabet character is the padding character. -/
theorem b64_enc_ne_pad : ∀ x : Nat, x < 64 → b64EncTable x ≠ '=' := by decide

/-- Helper: decoding inverts encoding on every byte sequence. -/
theorem b64_roundtrip_bytes (bs : List Nat) (h : ∀ b ∈ bs, b < 256) :
    b64DecodeChars (b64EncodeBytes bs) = some bs := by
  induction bs using b64EncodeBytes.induct with
  | case1 => rfl
  | case2 b1 =>
    have hb1 : b1 < 256 := h b1 (by simp)
    have e1 := b64_dec_enc (b1 / 4) (by omega)
    have e2 := b64_dec_enc (b1 % 4 * 16) (by omega)
    have h0 : b1 % 4 * 16 % 16 = 0 := by omega
    simp [b64EncodeBytes, b64DecodeChars, e1, e2, h0]
    omega
  | case3 b1 b2 =>
    have hb1 : b1 < 256 := h b1 (by simp)
    have hb2 : b2 < 256 := h b2 (by simp)
    have e1 := b64_dec_enc (b1 / 4) (by omega)
    have e2 := b64_dec_enc (b1 % 4 * 16 + b2 / 16) (by omega)
    have e3 := b64_dec_enc (b2 % 16 * 4) (by omega)
    have n3 := b64_enc_ne_pad (b2 % 16 * 4) (by omega)
    have h0 : b2 % 16 * 4 % 4 = 0 := by omega
    simp [b64EncodeBytes, b64DecodeChars, e1, e2, e3, n3, h0]
    omega
  | case4 b1 b2 b3 rest ih =>
    have hb1 : b1 < 256 := h b1 (by simp)
    have hb2 : b2 < 256 := h b2 (by simp)
    have hb3 : b3 < 256 := h b3 (by simp)
    have e1 := b64_dec_enc (b1 / 4) (by omega)
    have e2 := b64_dec_enc (b1 % 4 * 16 + b2 / 16) (by omega)
    have e3 := b64_dec_enc (b2 % 16 * 4 + b3 / 64) (by omega)
    have e4 := b64_dec_enc (b3 % 64) (by omega)
    have n3 := b64_enc_ne_pad (b2 % 16 * 4 + b3 / 64) (by omega)
    have n4 := b64_enc_ne_pad (b3 % 64) (by omega)
    have ihr := ih (fun b hb => h b (by simp [hb]))
    simp [b64EncodeBytes, b64DecodeChars, e1, e2, e3, e4, n3, n4, ihr]
    omega

/-- Helper: an ASCII character encodes to its single code-point byte. -/
theorem utf8EncodeChar_ascii (c : Char) (h : c.toNat ≤ 0x7F) :
    utf8EncodeChar c = [c.toNat] := by
  simp [utf8EncodeChar, h]

/-- Helper: an ASCII character list encodes byte-per-character. -/
theorem utf8Encode_ascii (l : List Char) (h : ∀ c ∈ l, c.toNat ≤ 0x7F) :
    utf8Encode l = l.map Char.toNat := by
  induction l with
  | nil => rfl
  | cons c cs ih =>
    simp [utf8Encode, utf8EncodeChar_ascii c (h c (by simp)),
      ih (fun x hx => h x (by simp [hx]))]

/-- Helper: the UTF-8 scanner consumes an ASCII byte as itself. -/
theorem utf8Step_ascii (b : Nat) (rest : List Nat) (h : b ≤ 0x7F) :
    utf8Step b rest = (some (Char.ofNat b), rest) := by
  simp [utf8Step, h, char_from_u32_small b (by omega)]

/-- Helper: the lossy decoder on a leading ASCII byte. -/
theorem utf8Lossy_cons_ascii (b : Nat) (rest : List Nat) (h : b ≤ 0x7F) :
    utf8Lossy (b :: rest) = Char.ofNat b :: utf8Lossy rest := by
  unfold utf8Lossy
  simp [utf8LossyGo, utf8Step_ascii b rest h]

/-- Helper: the lossy decoder inverts code-point bytes of ASCII characters. -/
theorem utf8Lossy_map_toNat (l : List Char) (h : ∀ c ∈ l, c.toNat ≤ 0x7F) :
    utf8Lossy (l.map Char.toNat) = l := by
  induction l with
  | nil => rfl
  | cons c cs ih =>
    rw [List.map_cons, utf8Lossy_cons_ascii _ _ (h c (by simp)), char_ofNat_toNat,
      ih (fun x hx => h x (by simp [hx]))]

/-- C6: for every printable-ASCII string, decoding the encoding returns the
original string: the UTF-8 bytes are the code points, the base64 layer
round-trips them, and the lossy UTF-8 conversion restores the characters. -/
theorem base64_roundtrip_printable_ascii (s : String)
    (h : ∀ c ∈ s.data, 0x20 ≤ c.toNat ∧ c.toNat ≤ 0x7E) :
    base64_decode (base64_encode s) = Except.ok s := by
  have hascii : ∀ c ∈ s.data, c.toNat ≤ 0x7F := by
    intro c hc
    have := h c hc
    omega
  have hlt : ∀ b ∈ s.data.map Char.toNat, b < 256 := by
    intro b hb
    simp only [List.mem_map] at hb
    obtain ⟨c, hc, rfl⟩ := hb
    have := hascii c hc
    omega
  unfold base64_decode base64_encode
  rw [utf8Encode_ascii s.data hascii,
    show (String.mk (b64EncodeBytes (s.data.map Char.toNat))).data =
      b64EncodeBytes (s.data.map Char.toNat) from rfl,
    b64_roundtrip_bytes _ hlt]
  show Except.ok (String.mk (utf8Lossy (s.data.map Char.toNat))) = Except.ok s
  rw [utf8Lossy_map_toNat s.data hascii]

/-- C6 witness: a concrete printable-ASCII string round-trips. -/
theorem base64_roundtrip_printable_ascii_witness :
    base64_decode (base64_encode "Hi!") = Except.ok "Hi!" :=
  base64_roundtrip_printable_ascii "Hi!" (by decide)

/-- C4 (amended): on every input rejected by the base64 codec (non-alphabet
characters, bad padding), the underlying decode yields a `DecodeError` and the
wrapper aborts through `.expect("Unable to decode provided string")` — a
panic, not an error value returned to the caller. -/
theorem base64_decode_invalid_panics (s : String) (h : b64DecodeChars s.data = none) :
    base64_decode s = Except.error (Panic.mk "Unable to decode provided string") := by
  unfold base64_decode
  rw [h]

/-- C4 witness: `"!"` is not base64 and the call panics. -/
theorem base64_decode_invalid_panics_witness :
    base64_decode "!" = Except.error (Panic.mk "Unable to decode provided string") :=
  base64_decode_invalid_panics "!" (by decide)

/-- C4 counterexample: on the malformed input `"%%%%"` the function does not
return a `DecodeError` — or anything — to its caller: the evaluation ends in
the modelled panic (process abort) raised by `.expect(..)`. -/
theorem base64_decode_error_not_returned_cex :
    base64_decode "%%%%" = Except.error (Panic.mk "Unable to decode provided string") := by
  decide

set_option maxHeartbeats 2000000 in
/-- Helper: one scanner step never returns more bytes than it was given. -/
theorem utf8Step_length (b : Nat) (rest : List Nat) :
    (utf8Step b rest).2.length ≤ rest.length := by
  unfold utf8Step
  repeat' split
  all_goals (try simp_all)
  all_goals (repeat' split)
  all_goals (try simp_all)
  all_goals (try omega)

/-- Helper: when the strict decoder rejects the bytes, the lossy decoder
emits at least one U+FFFD replacement character. -/
theorem utf8Strict_none_lossy_fffd : ∀ f2 f1 : Nat, ∀ l : List Nat,
    l.length ≤ f1 → l.length ≤ f2 → utf8StrictGo f1 l = none →
    Char.ofNat 0xFFFD ∈ utf8LossyGo f2 l := by
  intro f2
  induction f2 with
  | zero =>
    intro f1 l h1 h2 hn
    have hl : l = [] := List.length_eq_zero.1 (by omega)
    subst hl
    cases f1 <;> simp [utf8StrictGo] at hn
  | succ g ih =>
    intro f1 l h1 h2 hn
    match l with
    | [] => cases f1 <;> simp [utf8StrictGo] at hn
    | b :: rest =>
      match f1, h1 with
      | g1 + 1, h1 =>
        have hlen := utf8Step_length b rest
        cases hp : (utf8Step b rest).1 with
        | none =>
          simp [utf8LossyGo, hp]
        | some c =>
          simp only [utf8StrictGo, hp] at hn
          have hinner : utf8StrictGo g1 (utf8Step b rest).2 = none := by
            cases hs : utf8StrictGo g1 (utf8Step b rest).2
            · rfl
            · rw [hs] at hn
              simp at hn
          have hmem := ih g1 (utf8Step b rest).2
            (by simp at h1; omega) (by simp at h2; omega) hinner
          simp [utf8LossyGo, hp, hmem]

/-- C10: on every input accepted by the base64 codec, decoding does not fail
even when the decoded bytes are not valid UTF-8: the bytes are converted
lossily and returned, and whenever they are not valid UTF-8 the conversion
contains the U+FFFD replacement character. -/
theorem base64_decode_lossy_utf8 (s : String) (bs : List Nat)
    (h : b64DecodeChars s.data = some bs) :
    base64_decode s = Except.ok (String.mk (utf8Lossy bs)) ∧
    (validUtf8 bs = false → Char.ofNat 0xFFFD ∈ utf8Lossy bs) := by
  constructor
  · unfold base64_decode
    rw [h]
  · intro hv
    have hnone : utf8StrictGo bs.length bs = none := by
      unfold validUtf8 at hv
      cases hs : utf8StrictGo bs.length bs
      · rfl
      · rw [hs] at hv
        simp at hv
    exact utf8Strict_none_lossy_fffd bs.length bs.length bs le_rfl le_rfl hnone

/-- C10 witness: `"/w=="` is valid base64 whose decoded byte 0xFF is not valid
UTF-8; the call succeeds and the result contains U+FFFD. -/
theorem base64_decode_lossy_utf8_witness :
    base64_decode "/w==" = Except.ok (String.mk (utf8Lossy [255])) ∧
      Char.ofNat 0xFFFD ∈ utf8Lossy [255] :=
  ⟨(base64_decode_lossy_utf8 "/w==" [255] (by decide)).1,
   (base64_decode_lossy_utf8 "/w==" [255] (by decide)).2 (by decide)⟩

/-- Helper: each hex digit of a byte is a lowercase-hex character. -/
theorem hexDigitChar_mem : ∀ n : Nat, n < 16 → isLowerHexChar (hexDigitChar n) = true := by
  decide

/-- Helper: the hex rendering has two characters per byte. -/
theorem bytesToHexLower_length (bs : List Nat) :
    (bytesToHexLower bs).length = 2 * bs.length := by
  induction bs with
  | nil => rfl
  | cons b rest ih =>
    simp [bytesToHexLower, ih]
    omega

/-- Helper: every character of the hex rendering is lowercase hex. -/
theorem bytesToHexLower_all (bs : List Nat) :
    (bytesToHexLower bs).all isLowerHexChar = true := by
  induction bs with
  | nil => rfl
  | cons b rest ih =>
    simp only [bytesToHexLower, List.all_cons, ih, Bool.and_true]
    rw [hexDigitChar_mem (b / 16 % 16) (by omega), hexDigitChar_mem (b % 16) (by omega)]
    rfl

/-- Helper: the SHA-256 digest is 32 bytes. -/
theorem sha2_256_digest_length (m : List Nat) : (sha2_256_digest m).length = 32 := by
  simp [sha2_256_digest, wordBytesBE]

/-- Helper: the MD5 digest is 16 bytes. -/
theorem md5_digest_length (m : List Nat) : (md5_digest m).length = 16 := by
  simp [md5_digest, wordBytesLE]

/-- C7: for every input string the SHA-256 rendering is exactly 64 lowercase
hexadecimal characters and the MD5 rendering exactly 32; both functions are
pure functions of the input, so repeated calls with the same argument give
the same output (stated as the reflexive equations). -/
theorem hash_hex_output_format (s : String) :
    (sha2_256_hash s).length = 64 ∧
    (sha2_256_hash s).data.all isLowerHexChar = true ∧
    (md5_hash s).length = 32 ∧
    (md5_hash s).data.all isLowerHexChar = true ∧
    sha2_256_hash s = sha2_256_hash s ∧ md5_hash s = md5_hash s := by
  refine ⟨?_, ?_, ?_, ?_, rfl, rfl⟩
  · unfold sha2_256_hash
    show (bytesToHexLower (sha2_256_digest (utf8Encode s.data))).length = 64
    rw [bytesToHexLower_length, sha2_256_digest_length]
  · unfold sha2_256_hash
    show (bytesToHexLower (sha2_256_digest (utf8Encode s.data))).all isLowerHexChar = true
    exact bytesToHexLower_all _
  · unfold md5_hash
    show (bytesToHexLower (md5_digest (utf8Encode s.data))).length = 32
    rw [bytesToHexLower_length, md5_digest_length]
  · unfold md5_hash
    show (bytesToHexLower (md5_digest (utf8Encode s.data))).all isLowerHexChar = true
    exact bytesToHexLower_all _
